import Mathlib

/-!
Shallow embedding of the session-routing layer and tool-invocation facade of
the cute-dogs MCP example server (`src/examples/cute-dogs-server/server.ts`,
its helper module, and the duplicated variants `src/unnamed/part_000` /
`src/unnamed/part_001`).
-/

/-- A `StreamableHTTPServerTransport` as far as the routing layer observes it:
an identity (`tid`) and the session identifier the transport reports
(`transport.sessionId`, set by the transport once the session is initialized;
`none` before initialization). -/
structure Transport where
  tid : Nat
  sessionId : Option String
deriving DecidableEq

/-- The process-wide table `const transports = {}` mapping session ids to
transports (server.ts line 200).  JavaScript objects have unique keys; the
association list is kept key-unique by the operations below. -/
abbrev Table := List (String × Transport)

/-- `transports[s]` lookup. -/
def lookup : Table → String → Option Transport
  | [], _ => none
  | (k, t) :: r, s => if k = s then some t else lookup r s

/-- `transports[s] = t` (JavaScript assignment: replaces in place if the key
exists, otherwise appends). -/
def insertT : Table → String → Transport → Table
  | [], s, t => [(s, t)]
  | (k, u) :: r, s, t => if k = s then (s, t) :: r else (k, u) :: insertT r s t

/-- `delete transports[s]`. -/
def eraseT : Table → String → Table
  | [], _ => []
  | (k, u) :: r, s => if k = s then eraseT r s else (k, u) :: eraseT r s

/-- JavaScript truthiness of the `mcp-session-id` header value
(`req.headers["mcp-session-id"] as string | undefined`):  `undefined` and the
empty string are falsy, every other string is truthy. -/
def sessionTruthy : Option String → Bool
  | none => false
  | some s => s ≠ ""

/-- `transports[sessionId]` where the header may be absent. -/
def lookupH (tbl : Table) : Option String → Option Transport
  | none => none
  | some s => lookup tbl s

/-- The JSON body `{jsonrpc, error: {code, message}, id: null}` produced by
the POST handler's 400 and 500 branches. -/
structure JsonRpcBody where
  jsonrpc : String
  code : Int
  message : String
  idNull : Bool
deriving DecidableEq

/-- Outcome of a POST dispatch as seen by the caller. -/
inductive PostResult
  /-- Forwarded to an existing transport, which wrote the response. -/
  | forwardOk
  /-- Initialization path succeeded: the transport wrote the response and set
  the `Mcp-Session-Id` response header to `sid`. -/
  | initOk (sid : String)
  /-- `res.status(400).json(body)`. -/
  | badRequest (body : JsonRpcBody)
  /-- `res.status(500).json(body)` from the catch block. -/
  | internalError (body : JsonRpcBody)
  /-- Exception caught after headers were already sent: only logged, the
  response is not modified. -/
  | errorAfterHeaders
deriving DecidableEq

/-- Observable events emitted while a POST dispatch runs, used to state
ordering and cardinality properties. -/
inductive Event
  | createTransport (tid : Nat)
  /-- The transport confirms the session is ready by invoking the registered
  `onsessioninitialized` callback with `sid`. -/
  | sessionReady (sid : String)
  /-- `transports[sessionId] = transport` inside the callback body. -/
  | tableInsert (sid : String) (tid : Nat)
  | forwardTo (tid : Nat)
  | respond400
  | respondSession (sid : String)
deriving DecidableEq

/-- Behaviour of the `await transport.handleRequest(...)` (and the
construction steps around it): it either completes, throws before any
response bytes were written, or throws after headers were sent. -/
inductive ForwardBehavior
  | ok
  | throwsBefore
  | throwsAfter
deriving DecidableEq

/-- Result bundle of one POST dispatch. -/
structure PostOut where
  table : Table
  result : PostResult
  events : List Event
deriving DecidableEq

/-- The 400 body of the POST handler (server.ts lines 233-238). -/
def badSessionBody : JsonRpcBody :=
  ⟨"2.0", -32000, "Bad Request: No valid session ID", true⟩

/-- The 500 body of the POST handler's catch block (server.ts lines 245-249). -/
def internalErrorBody : JsonRpcBody :=
  ⟨"2.0", -32603, "Internal server error", true⟩

/-- Known-session branch: `transport = transports[sessionId]` followed by
`await transport.handleRequest(req, res, req.body)` under the try/catch. -/
def forwardKnown (tbl : Table) (t : Transport) : ForwardBehavior → PostOut
  | .ok => ⟨tbl, .forwardOk, [.forwardTo t.tid]⟩
  | .throwsBefore => ⟨tbl, .internalError internalErrorBody, [.forwardTo t.tid]⟩
  | .throwsAfter => ⟨tbl, .errorAfterHeaders, [.forwardTo t.tid]⟩

/-- Modelled from the spec: the external `StreamableHTTPServerTransport`
(SDK code, not in this repository) handling an initialization request.  Per
spec section 4.1 the transport is bound to the freshly generated identifier,
confirms readiness by invoking the registered `onsessioninitialized`
callback — whose body (server.ts lines 214-217) performs the table insertion
— and returns the identifier to the caller in the `Mcp-Session-Id` response
header.  `freshId` is the value produced by the `sessionIdGenerator`
(`randomUUID`); `tid` identifies the newly constructed transport.  A throw
before the session is initialized leaves the table untouched; a throw after
headers were sent happens after initialization completed. -/
def initPath (tbl : Table) (freshId : String) (tid : Nat) : ForwardBehavior → PostOut
  | .ok =>
    ⟨insertT tbl freshId ⟨tid, some freshId⟩, .initOk freshId,
      [.createTransport tid, .sessionReady freshId, .tableInsert freshId tid,
        .respondSession freshId]⟩
  | .throwsBefore =>
    ⟨tbl, .internalError internalErrorBody, [.createTransport tid]⟩
  | .throwsAfter =>
    ⟨insertT tbl freshId ⟨tid, some freshId⟩, .errorAfterHeaders,
      [.createTransport tid, .sessionReady freshId, .tableInsert freshId tid]⟩

/-- The POST `/mcp` handler `mcpPostHandler` (server.ts lines 202-252):
`header` is `req.headers["mcp-session-id"]` (`none` when the request carries
no such header), `bodyIsInit` is `isInitializeRequest(req.body)`, `freshId`
and `tid` parameterize the fresh transport of the initialization path, and
`fb` is the behaviour of the forwarding call. -/
def mcpPost (tbl : Table) (header : Option String) (bodyIsInit : Bool)
    (freshId : String) (tid : Nat) (fb : ForwardBehavior) : PostOut :=
  if sessionTruthy header && (lookupH tbl header).isSome then
    forwardKnown tbl ((lookupH tbl header).getD ⟨0, none⟩) fb
  else if !sessionTruthy header && bodyIsInit then
    initPath tbl freshId tid fb
  else
    ⟨tbl, .badRequest badSessionBody, [.respond400]⟩

/-- Outcome of the GET `/mcp` handler. -/
inductive GetResult
  | badRequest400 (body : String)
  | forwarded
deriving DecidableEq

/-- The GET `/mcp` handler (server.ts lines 256-264). -/
def mcpGet (tbl : Table) (header : Option String) : Table × GetResult :=
  if !(sessionTruthy header && (lookupH tbl header).isSome) then
    (tbl, .badRequest400 "Invalid or missing session ID")
  else
    (tbl, .forwarded)

/-- Outcome of the DELETE `/mcp` handler. -/
inductive DeleteResult
  | badRequest400 (body : String)
  | forwarded
  | error500 (body : String)
  | errorAfterHeaders
deriving DecidableEq

/-- The DELETE `/mcp` handler (server.ts lines 266-281): same session guard
as GET, then forwards to the transport's own termination handling under a
try/catch that writes a plain-text 500 only when headers were not yet sent.
The handler itself never touches the table. -/
def mcpDelete (tbl : Table) (header : Option String) (fb : ForwardBehavior) :
    Table × DeleteResult :=
  if !(sessionTruthy header && (lookupH tbl header).isSome) then
    (tbl, .badRequest400 "Invalid or missing session ID")
  else
    match fb with
    | .ok => (tbl, .forwarded)
    | .throwsBefore => (tbl, .error500 "Error processing session termination")
    | .throwsAfter => (tbl, .errorAfterHeaders)

/-- The `transport.onclose` callback registered at construction (server.ts
lines 220-226): read `transport.sessionId`, and if truthy and present in the
table, delete that entry. -/
def oncloseRun (tbl : Table) (t : Transport) : Table :=
  match t.sessionId with
  | none => tbl
  | some sid =>
    if sid ≠ "" && (lookup tbl sid).isSome then eraseT tbl sid else tbl

/-- The SIGINT handler's loop (server.ts lines 287-298): for each session in
the table, `await transports[sessionId].close()` then
`delete transports[sessionId]`, with a per-session try/catch that logs and
moves on.  `closeThrows s` tells whether closing session `s`'s transport
throws.  Returns the table left behind and the list of sessions whose close
was attempted, in iteration order. -/
def sigintShutdown : Table → (String → Bool) → Table × List String
  | [], _ => ([], [])
  | (s, t) :: rest, closeThrows =>
    let out := sigintShutdown rest closeThrows
    (if closeThrows s then (s, t) :: out.1 else out.1, s :: out.2)

/-!
Tool invocation facade.  The upstream Dog CEO API returns a JSON object
`{status, message}` where `message` is a string, an array of strings, a keyed
map of breed names, or null/undefined on malformed replies.
-/

/-- The JSON value found in the upstream payload's `message` field. -/
inductive JVal
  | str (s : String)
  | arr (xs : List String)
  | obj (keys : List String)
  | nullv
deriving DecidableEq

/-- The parsed upstream payload `{status, message}`. -/
structure DogApi where
  status : String
  message : JVal
deriving DecidableEq

/-- A thrown JavaScript value: an `Error` carrying a message, or any
non-`Error` value. -/
inductive JSError
  | err (msg : String)
  | nonError
deriving DecidableEq

/-- Behaviour of `await fetch(...)` plus `await response.json()`: the pair
either throws or yields a parsed payload. -/
inductive FetchResult
  | threw (e : JSError)
  | ok (d : DogApi)
deriving DecidableEq

/-- JavaScript truthiness of a `message` value (`!data.message`): the empty
string and null are falsy; arrays and objects are always truthy. -/
def jvalTruthy : JVal → Bool
  | .str s => s ≠ ""
  | .arr _ => true
  | .obj _ => true
  | .nullv => false

/-- `typeof data.message === "object"`: true for arrays, plain objects and —
a JavaScript quirk — null. -/
def jvalIsObjectType : JVal → Bool
  | .str _ => false
  | .arr _ => true
  | .obj _ => true
  | .nullv => true

/-- `Array.isArray(data.message)`. -/
def jvalIsArr : JVal → Bool
  | .arr _ => true
  | _ => false

/-- Accumulator recursion behind `jsSplitSlash`. -/
def splitCharAux : List Char → List Char → List String
  | [], acc => [String.mk acc.reverse]
  | c :: cs, acc =>
    if c = '/' then String.mk acc.reverse :: splitCharAux cs []
    else splitCharAux cs (c :: acc)

/-- JavaScript `s.split("/")`: cuts at every slash, keeping empty segments
(so `"".split("/")` is `[""]` and `"a//b".split("/")` is `["a","","b"]`). -/
def jsSplitSlash (s : String) : List String := splitCharAux s.data []

/-- Message of the `TypeError` raised by calling `.split` on a non-string
value. -/
def splitTypeErrorMessage : String := "data.message.split is not a function"

/-- Message of the `TypeError` raised by `Object.keys(null)`. -/
def keysOfNullMessage : String := "Cannot convert undefined or null to object"

/-- `data.message.split("/")[4]` evaluated on an arbitrary JSON value: only
strings have `.split`; everything else raises a `TypeError`.  `none` models
the JavaScript `undefined` produced when the split has fewer than five
segments. -/
def splitBreedJS : JVal → Except JSError (Option String)
  | .str s => .ok ((jsSplitSlash s).get? 4)
  | _ => .error (.err splitTypeErrorMessage)

/-- `Object.keys(data.message)`: keys of a plain object, index strings for an
array or a string, a `TypeError` for null. -/
def objectKeysJS : JVal → Except JSError (List String)
  | .obj ks => .ok ks
  | .arr xs => .ok ((List.range xs.length).map toString)
  | .str s => .ok ((List.range s.length).map toString)
  | .nullv => .error (.err keysOfNullMessage)

/-- The text payload of a tool result, kept structural: each constructor is
one `JSON.stringify({...})` shape occurring in the handlers. -/
inductive ToolText
  /-- `{"error": msg}` -/
  | objError (error : String)
  /-- `{"error": msg, "status": st}` -/
  | objErrorStatus (error : String) (status : String)
  /-- `{"error": msg, "status": st, "message": m}` -/
  | objErrorStatusMsg (error : String) (status : String) (message : JVal)
  /-- `{"message": m, "status": st}` -/
  | objMsgStatus (message : String) (status : String)
  /-- `{"breeds": bs}` -/
  | objBreeds (breeds : List String)
  /-- `{"breed": b, "images": xs}` -/
  | objBreedImages (breed : String) (images : List String)
  /-- `JSON.stringify(data)`, i.e. `{"status": st, "message": m}` -/
  | objData (status : String) (message : JVal)
deriving DecidableEq

/-- The `error` field of a textual payload, when present. -/
def errorFieldOf : ToolText → Option String
  | .objError e => some e
  | .objErrorStatus e _ => some e
  | .objErrorStatusMsg e _ _ => some e
  | _ => none

/-- The `structuredContent` of a tool result. -/
inductive Structured
  /-- `{...result, status}` of the server.ts single-image handler:
  `{message, breed, status}`. -/
  | randomDog (message : String) (breed : Option String) (status : String)
  /-- `{...data, breed}` of the part_000/part_001 single-image handlers. -/
  | dogData (status : String) (message : JVal) (breed : Option String)
  /-- `{breeds}` -/
  | breeds (bs : List String)
  /-- `{breed, images}` -/
  | breedImages (breed : String) (images : List String)
deriving DecidableEq

/-- A `CallToolResult` restricted to what the handlers produce. -/
structure CallToolResult where
  text : ToolText
  structuredContent : Option Structured
  isError : Bool
deriving DecidableEq

/-- `createErrorResult(error, message)` from the helper module: the `error`
field is the thrown `Error`'s own message, or the fallback for non-`Error`
values.  The inline catch blocks of part_000/part_001 have the same shape
with fallback `"Unknown error"`. -/
def createErrorResult (e : JSError) (fallback : String) : CallToolResult :=
  ⟨.objError (match e with | .err m => m | .nonError => fallback), none, true⟩

/-- Helper `fetchRandomDogImage` (helper module lines 150-166): throws
`Error("Failed to fetch dog image")` unless the payload has status
`"success"` and a truthy message, then casts the message to a string and
takes `split("/")[4]` as the breed. -/
def fetchRandomDogImage (f : FetchResult) :
    Except JSError (String × Option String) :=
  match f with
  | .threw e => .error e
  | .ok d =>
    if d.status ≠ "success" || !jvalTruthy d.message then
      .error (.err "Failed to fetch dog image")
    else
      match d.message with
      | .str m => .ok (m, (jsSplitSlash m).get? 4)
      | _ => .error (.err splitTypeErrorMessage)

/-- Helper `fetchAllBreeds` (helper module lines 171-180): throws
`Error("Failed to fetch breeds")` unless status is `"success"` and
`typeof message === "object"`, then returns `Object.keys(data.message)`. -/
def fetchAllBreeds (f : FetchResult) : Except JSError (List String) :=
  match f with
  | .threw e => .error e
  | .ok d =>
    if d.status ≠ "success" || !jvalIsObjectType d.message then
      .error (.err "Failed to fetch breeds")
    else
      objectKeysJS d.message

/-- Helper `fetchBreedImages` (helper module lines 185-198): throws
`Error("Failed to fetch images")` unless status is `"success"` and the
message is an array. -/
def fetchBreedImages (f : FetchResult) : Except JSError (List String) :=
  match f with
  | .threw e => .error e
  | .ok d =>
    if d.status ≠ "success" || !jvalIsArr d.message then
      .error (.err "Failed to fetch images")
    else
      match d.message with
      | .arr xs => .ok xs
      | _ => .error (.err "Failed to fetch images")

/-- The server.ts `show-random-dog-image` handler (lines 94-112): try/catch
around `fetchRandomDogImage`; on success the text echoes
`Successfully fetched ${breed} image` (a template literal, so an absent
breed argument prints as `undefined`) and the structured content is
`{...result, status: "success"}`. -/
def showRandomDogImageTool (breedArg : Option String) (f : FetchResult) :
    CallToolResult :=
  match fetchRandomDogImage f with
  | .ok r =>
    ⟨.objMsgStatus ("Successfully fetched " ++ breedArg.getD "undefined" ++ " image")
        "success",
      some (.randomDog r.1 r.2 "success"), false⟩
  | .error e => createErrorResult e "Failed to fetch dog image"

/-- The server.ts `show-all-breeds` handler (lines 124-134): try/catch
around `fetchAllBreeds`. -/
def showAllBreedsTool (f : FetchResult) : CallToolResult :=
  match fetchAllBreeds f with
  | .ok bs => ⟨.objBreeds bs, some (.breeds bs), false⟩
  | .error e => createErrorResult e "Failed to fetch breeds"

/-- The server.ts `get-more-images` handler (lines 161-176): try/catch
around `fetchBreedImages`. -/
def getMoreImagesTool (breed : String) (f : FetchResult) : CallToolResult :=
  match fetchBreedImages f with
  | .ok xs => ⟨.objBreedImages breed xs, some (.breedImages breed xs), false⟩
  | .error e => createErrorResult e "Failed to fetch images"

/-- The part_001 `show-random-dog-image` handler (part_001 lines 102-149;
identically the part_000 `show-dog-image` handler, lines 90-138): the whole
body sits in a try/catch, `data.message.split("/")[4]` is computed before
the status check, and the non-success branch returns
`{"error": "Failed to fetch dog image", "status": data.status}`. -/
def showRandomDogImageToolV1 (f : FetchResult) : CallToolResult :=
  match f with
  | .threw e => createErrorResult e "Unknown error"
  | .ok d =>
    match splitBreedJS d.message with
    | .error e => createErrorResult e "Unknown error"
    | .ok br =>
      if d.status = "success" && jvalTruthy d.message then
        ⟨.objData d.status d.message, some (.dogData d.status d.message br), false⟩
      else
        ⟨.objErrorStatus "Failed to fetch dog image" d.status, none, true⟩

/-- The part_001 `show-all-breeds` handler (lines 161-169): NO try/catch —
a throwing fetch, a failed JSON parse, or `Object.keys` on a null message
all propagate out of the handler. -/
def showAllBreedsToolV1 (f : FetchResult) : Except JSError CallToolResult :=
  match f with
  | .threw e => .error e
  | .ok d =>
    match objectKeysJS d.message with
    | .error e => .error e
    | .ok bs => .ok ⟨.objBreeds bs, some (.breeds bs), false⟩

/-- The part_001 `get-more-images` handler (lines 196-243): try/catch; the
non-success branch returns
`{"error": "Failed to fetch images", "status": data.status, "message": data.message}`. -/
def getMoreImagesToolV1 (breed : String) (f : FetchResult) : CallToolResult :=
  match f with
  | .threw e => createErrorResult e "Unknown error"
  | .ok d =>
    match d.message with
    | .arr xs =>
      if d.status = "success" then
        ⟨.objBreedImages breed xs, some (.breedImages breed xs), false⟩
      else
        ⟨.objErrorStatusMsg "Failed to fetch images" d.status d.message, none, true⟩
    | m => ⟨.objErrorStatusMsg "Failed to fetch images" d.status m, none, true⟩

/-!
Schema validation of the `count` argument of `get-more-images`.  Zod runs
before the handler: `z.number().int().min(1).max(30).optional().default(3)`
in server.ts (lines 149-158), `...min(1).max(10)...` in part_001
(lines 184-193).  An absent argument defaults to 3; a present argument must
be an integer (modelled as a rational with denominator 1) within the bounds,
otherwise validation rejects the invocation.
-/

/-- server.ts `count` schema: integer in `[1, 30]`, default 3. -/
def zodCount30 : Option ℚ → Option ℚ
  | none => some 3
  | some q => if q.den = 1 ∧ 1 ≤ q ∧ q ≤ 30 then some q else none

/-- part_001 `count` schema: integer in `[1, 10]`, default 3. -/
def zodCount10 : Option ℚ → Option ℚ
  | none => some 3
  | some q => if q.den = 1 ∧ 1 ≤ q ∧ q ≤ 10 then some q else none

/-- Outcome of invoking `get-more-images` through the SDK: either the schema
rejects the arguments before the handler runs, or the handler runs against
the outbound fetch. -/
inductive InvokeOutcome
  | schemaRejected
  | called (r : CallToolResult)
deriving DecidableEq

/-- End-to-end invocation of the server.ts `get-more-images` tool: zod
validation first; the outbound fetch `f` is consulted only when validation
passes. -/
def invokeGetMoreImages (breed : String) (c : Option ℚ) (f : FetchResult) :
    InvokeOutcome :=
  match zodCount30 c with
  | none => .schemaRejected
  | some _ => .called (getMoreImagesTool breed f)

/-- End-to-end invocation of the part_001 `get-more-images` tool. -/
def invokeGetMoreImagesV1 (breed : String) (c : Option ℚ) (f : FetchResult) :
    InvokeOutcome :=
  match zodCount10 c with
  | none => .schemaRejected
  | some _ => .called (getMoreImagesToolV1 breed f)

/-- Well-formedness of the transport table: keys are the non-empty
identifiers produced by `randomUUID`, each entry's key is exactly the
`sessionId` reported by the transport stored under it, and — as for any
JavaScript object — keys are unique. -/
def tableWF (tbl : Table) : Prop :=
  (∀ p ∈ tbl, p.1 ≠ "" ∧ p.2.sessionId = some p.1) ∧ (tbl.map Prod.fst).Nodup

instance (tbl : Table) : Decidable (tableWF tbl) := by
  unfold tableWF; infer_instance

/-- Recognizes transport-construction events. -/
def isCreateEvent : Event → Bool
  | .createTransport _ => true
  | _ => false

/-- Recognizes table-insertion events. -/
def isInsertEvent : Event → Bool
  | .tableInsert _ _ => true
  | _ => false

/-- Scans an event list carrying the set of session ids already confirmed
ready; a `tableInsert` for an unconfirmed id fails the scan. -/
def insertsAfterReadyAux : List String → List Event → Bool
  | _, [] => true
  | ready, Event.sessionReady s :: es => insertsAfterReadyAux (s :: ready) es
  | ready, Event.tableInsert s _ :: es =>
    if s ∈ ready then insertsAfterReadyAux ready es else false
  | ready, _ :: es => insertsAfterReadyAux ready es

/-- Every table insertion in the trace happens strictly after the transport
confirmed that session ready. -/
def insertsAfterReady (es : List Event) : Bool := insertsAfterReadyAux [] es

/-- The POST dispatch reaches a transport (and hence can raise an exception
while constructing or forwarding): either the known-session branch or the
initialization branch is taken. -/
def postReachesTransport (tbl : Table) (hd : Option String) (i : Bool) : Prop :=
  (sessionTruthy hd && (lookupH tbl hd).isSome) = true ∨
  (sessionTruthy hd = false ∧ i = true)

/-- Is the `message` a string? -/
def jvalIsStr : JVal → Bool
  | .str _ => true
  | _ => false

/-- Is the `message` null? -/
def jvalIsNull : JVal → Bool
  | .nullv => true
  | _ => false

/-- Payloads on which the single-image operation succeeds: status
`"success"`, truthy message, and the message is a string (anything else
makes the helper throw, in server.ts, or the inline handler take an error
branch, in part_000/part_001). -/
def goodSingle (d : DogApi) : Bool :=
  if d.status = "success" then jvalTruthy d.message && jvalIsStr d.message
  else false

/-- Payloads on which `show-all-breeds` (server.ts) succeeds: status
`"success"`, `typeof message === "object"`, and message not null (null
passes the typeof check but `Object.keys(null)` throws). -/
def goodBreeds (d : DogApi) : Bool :=
  if d.status = "success" then jvalIsObjectType d.message && !jvalIsNull d.message
  else false

/-- Payloads on which `get-more-images` succeeds: status `"success"` and an
array message. -/
def goodImages (d : DogApi) : Bool :=
  if d.status = "success" then jvalIsArr d.message else false

/-- The fetch misbehaves for a tool whose success condition is `good`: it
throws, or returns a payload outside the tool's success condition. -/
def fetchMisbehaves (good : DogApi → Bool) : FetchResult → Bool
  | .threw _ => true
  | .ok d => !good d

/-- Every `Error` the fetch throws carries a non-empty message (true of real
network errors; non-`Error` thrown values are unrestricted). -/
def thrownMsgNonempty : FetchResult → Bool
  | .threw (.err m) => m ≠ ""
  | _ => true

/-!
Supporting lemmas about the table operations.
-/

theorem lookup_insertT_self (tbl : Table) (s : String) (t : Transport) :
    lookup (insertT tbl s t) s = some t := by
  induction tbl with
  | nil => simp [insertT, lookup]
  | cons p r ih =>
    obtain ⟨k, u⟩ := p
    by_cases hk : k = s
    · simp [insertT, hk, lookup]
    · simp [insertT, hk, lookup, ih]

theorem mem_insertT (tbl : Table) (s : String) (t : Transport)
    (p : String × Transport) (hp : p ∈ insertT tbl s t) :
    p = (s, t) ∨ p ∈ tbl := by
  induction tbl with
  | nil => simpa [insertT] using hp
  | cons q r ih =>
    obtain ⟨k, u⟩ := q
    by_cases hk : k = s
    · simp only [insertT, hk, if_pos rfl] at hp
      rcases List.mem_cons.mp hp with h | h
      · exact Or.inl h
      · exact Or.inr (List.mem_cons_of_mem _ h)
    · simp only [insertT, if_neg hk] at hp
      rcases List.mem_cons.mp hp with h | h
      · exact Or.inr (h ▸ List.mem_cons_self _ _)
      · rcases ih h with h' | h'
        · exact Or.inl h'
        · exact Or.inr (List.mem_cons_of_mem _ h')

theorem mem_insertT_of_mem (tbl : Table) (s : String) (t : Transport)
    (p : String × Transport) (hnew : lookup tbl s = none) (hp : p ∈ tbl) :
    p ∈ insertT tbl s t := by
  induction tbl with
  | nil => cases hp
  | cons q r ih =>
    obtain ⟨k, u⟩ := q
    by_cases hk : k = s
    · simp [lookup, hk] at hnew
    · simp only [lookup, if_neg hk] at hnew
      rcases List.mem_cons.mp hp with h | h
      · simp [insertT, if_neg hk, h]
      · simp only [insertT, if_neg hk]
        exact List.mem_cons_of_mem _ (ih hnew h)

theorem length_insertT_of_fresh (tbl : Table) (s : String) (t : Transport)
    (hnew : lookup tbl s = none) :
    (insertT tbl s t).length = tbl.length + 1 := by
  induction tbl with
  | nil => simp [insertT]
  | cons q r ih =>
    obtain ⟨k, u⟩ := q
    by_cases hk : k = s
    · simp [lookup, hk] at hnew
    · simp only [lookup, if_neg hk] at hnew
      simp [insertT, if_neg hk, ih hnew]

theorem map_fst_insertT (tbl : Table) (s : String) (t : Transport) :
    (insertT tbl s t).map Prod.fst =
      if s ∈ tbl.map Prod.fst then tbl.map Prod.fst
      else tbl.map Prod.fst ++ [s] := by
  induction tbl with
  | nil => simp [insertT]
  | cons q r ih =>
    obtain ⟨k, u⟩ := q
    by_cases hk : k = s
    · simp [insertT, hk]
    · by_cases hs : s ∈ r.map Prod.fst
      · simp [insertT, if_neg hk, ih, hs, Ne.symm hk]
      · simp [insertT, if_neg hk, ih, hs, Ne.symm hk]

theorem lookup_eq_none_iff (tbl : Table) (s : String) :
    lookup tbl s = none ↔ s ∉ tbl.map Prod.fst := by
  induction tbl with
  | nil => simp [lookup]
  | cons q r ih =>
    obtain ⟨k, u⟩ := q
    by_cases hk : k = s
    · simp [lookup, hk]
    · simp [lookup, if_neg hk, ih, Ne.symm hk]

theorem eraseT_sublist (tbl : Table) (s : String) :
    (eraseT tbl s).Sublist tbl := by
  induction tbl with
  | nil => simp [eraseT]
  | cons q r ih =>
    obtain ⟨k, u⟩ := q
    by_cases hk : k = s
    · simp only [eraseT, if_pos hk]
      exact ih.cons (k, u)
    · simp only [eraseT, if_neg hk]
      exact ih.cons₂ (k, u)

theorem lookup_eraseT_self (tbl : Table) (s : String) :
    lookup (eraseT tbl s) s = none := by
  induction tbl with
  | nil => simp [eraseT, lookup]
  | cons q r ih =>
    obtain ⟨k, u⟩ := q
    by_cases hk : k = s
    · simpa [eraseT, hk] using ih
    · simpa [eraseT, hk, lookup] using ih

theorem mem_eraseT_of_ne (tbl : Table) (s : String)
    (p : String × Transport) (hp : p ∈ tbl) (hne : p.1 ≠ s) :
    p ∈ eraseT tbl s := by
  induction tbl with
  | nil => cases hp
  | cons q r ih =>
    obtain ⟨k, u⟩ := q
    rcases List.mem_cons.mp hp with h | h
    · subst h
      have hk : k ≠ s := hne
      simp [eraseT, hk]
    · by_cases hk : k = s
      · simpa [eraseT, hk] using ih h
      · simp [eraseT, hk]
        exact Or.inr (ih h)

theorem eraseT_of_lookup_none (tbl : Table) (s : String)
    (h : lookup tbl s = none) : eraseT tbl s = tbl := by
  induction tbl with
  | nil => simp [eraseT]
  | cons q r ih =>
    obtain ⟨k, u⟩ := q
    by_cases hk : k = s
    · simp [lookup, hk] at h
    · simp only [lookup, if_neg hk] at h
      simp [eraseT, hk, ih h]

theorem sigintShutdown_eq (tbl : Table) (f : String → Bool) :
    sigintShutdown tbl f =
      (tbl.filter (fun p => f p.1), tbl.map Prod.fst) := by
  induction tbl with
  | nil => simp [sigintShutdown]
  | cons q r ih =>
    obtain ⟨s, t⟩ := q
    by_cases hf : f s
    · simp [sigintShutdown, ih, List.filter, hf]
    · simp [sigintShutdown, ih, List.filter, hf]

theorem tableWF_insertT (tbl : Table) (s : String) (tid : Nat)
    (hwf : tableWF tbl) (hs : s ≠ "") :
    tableWF (insertT tbl s ⟨tid, some s⟩) := by
  constructor
  · intro p hp
    rcases mem_insertT tbl s ⟨tid, some s⟩ p hp with h | h
    · subst h; exact ⟨hs, rfl⟩
    · exact hwf.1 p h
  · rw [map_fst_insertT]
    by_cases hmem : s ∈ tbl.map Prod.fst
    · simpa [hmem] using hwf.2
    · simp only [hmem, if_neg, ite_false]
      simp [List.nodup_append, hwf.2, hmem]

theorem tableWF_of_sublist (tbl tbl' : Table) (hsub : tbl'.Sublist tbl)
    (hwf : tableWF tbl) : tableWF tbl' := by
  constructor
  · intro p hp
    exact hwf.1 p (hsub.subset hp)
  · exact hwf.2.sublist (hsub.map Prod.fst)

theorem tableWF_eraseT (tbl : Table) (s : String) (hwf : tableWF tbl) :
    tableWF (eraseT tbl s) :=
  tableWF_of_sublist tbl (eraseT tbl s) (eraseT_sublist tbl s) hwf

/-- The table after a POST dispatch is either untouched or extended by the
single initialization-path insertion. -/
theorem mcpPost_table_cases (tbl : Table) (hd : Option String) (i : Bool)
    (fid : String) (tid : Nat) (fb : ForwardBehavior) :
    (mcpPost tbl hd i fid tid fb).table = tbl ∨
    (mcpPost tbl hd i fid tid fb).table = insertT tbl fid ⟨tid, some fid⟩ := by
  unfold mcpPost
  split
  · cases fb <;> exact Or.inl rfl
  · split
    · cases fb with
      | ok => exact Or.inr rfl
      | throwsBefore => exact Or.inl rfl
      | throwsAfter => exact Or.inr rfl
    · exact Or.inl rfl

theorem oncloseRun_table_cases (tbl : Table) (t : Transport) :
    oncloseRun tbl t = tbl ∨
    ∃ s, t.sessionId = some s ∧ oncloseRun tbl t = eraseT tbl s := by
  unfold oncloseRun
  cases hsid : t.sessionId with
  | none => exact Or.inl rfl
  | some s =>
    by_cases hc : (decide (s ≠ "") && (lookup tbl s).isSome) = true
    · refine Or.inr ⟨s, rfl, ?_⟩
      show (if (decide (s ≠ "") && (lookup tbl s).isSome) = true
          then eraseT tbl s else tbl) = eraseT tbl s
      rw [if_pos hc]
    · refine Or.inl ?_
      show (if (decide (s ≠ "") && (lookup tbl s).isSome) = true
          then eraseT tbl s else tbl) = tbl
      rw [if_neg hc]

theorem oncloseRun_lookup_none (tbl : Table) (t : Transport) (s : String)
    (hsid : t.sessionId = some s) (hs : s ≠ "") :
    lookup (oncloseRun tbl t) s = none := by
  unfold oncloseRun
  rw [hsid]
  by_cases hp : (lookup tbl s).isSome
  · simp [hs, hp, lookup_eraseT_self]
  · simp [hs, hp]
    exact Option.not_isSome_iff_eq_none.mp hp

theorem mcpGet_unknown (tbl : Table) (s : String)
    (hnone : lookup tbl s = none) :
    (mcpGet tbl (some s)).2 = .badRequest400 "Invalid or missing session ID" := by
  simp [mcpGet, lookupH, hnone]

/-- C8: on receipt of the interrupt signal the shutdown loop visits every
live session in the table and attempts each transport's close
independently (the attempted list is all keys, whatever throws); the table
left behind consists exactly of the sessions whose close threw — a
completed close deletes the entry, a throwing close abandons it in place. -/
theorem claim_C8_shutdown (tbl : Table) (closeThrows : String → Bool) :
    (sigintShutdown tbl closeThrows).2 = tbl.map Prod.fst ∧
    (sigintShutdown tbl closeThrows).1 =
      tbl.filter (fun p => closeThrows p.1) ∧
    (∀ p ∈ tbl,
      (p ∈ (sigintShutdown tbl closeThrows).1 ↔ closeThrows p.1 = true)) := by
  have h := sigintShutdown_eq tbl closeThrows
  refine ⟨by rw [h], by rw [h], ?_⟩
  intro p hp
  rw [h]
  simp [List.mem_filter, hp]

/-- Witness for C8 on a two-session table where closing session `"b"`
throws: both closes are attempted, `"a"` is deleted, `"b"` survives. -/
theorem claim_C8_shutdown_witness :
    (sigintShutdown [("a", ⟨0, some "a"⟩), ("b", ⟨1, some "b"⟩)]
        (fun s => s == "b")).2 =
      ([("a", (⟨0, some "a"⟩ : Transport)), ("b", ⟨1, some "b"⟩)]).map Prod.fst ∧
    (sigintShutdown [("a", ⟨0, some "a"⟩), ("b", ⟨1, some "b"⟩)]
        (fun s => s == "b")).1 =
      ([("a", (⟨0, some "a"⟩ : Transport)), ("b", ⟨1, some "b"⟩)]).filter
        (fun p => (fun s => s == "b") p.1) ∧
    (∀ p ∈ [("a", (⟨0, some "a"⟩ : Transport)), ("b", ⟨1, some "b"⟩)],
      (p ∈ (sigintShutdown [("a", ⟨0, some "a"⟩), ("b", ⟨1, some "b"⟩)]
          (fun s => s == "b")).1 ↔ (fun s => s == "b") p.1 = true)) :=
  claim_C8_shutdown [("a", ⟨0, some "a"⟩), ("b", ⟨1, some "b"⟩)] (fun s => s == "b")

/-- C7: the DELETE handler (like GET and POST) never removes a table entry
itself; removal happens in the transport's onclose callback, after which
the entry for that transport's sessionId is absent and a subsequent GET
naming that identifier is answered with the 400 rejection. -/
theorem claim_C7_onclose_removal (tbl : Table) (hd : Option String) (i : Bool)
    (fid s : String) (tid : Nat) (fb : ForwardBehavior) (t : Transport)
    (hfresh : lookup tbl fid = none)
    (hsid : t.sessionId = some s) (hs : s ≠ "") :
    (mcpDelete tbl hd fb).1 = tbl ∧
    (mcpGet tbl hd).1 = tbl ∧
    (∀ p ∈ tbl, p ∈ (mcpPost tbl hd i fid tid fb).table) ∧
    lookup (oncloseRun tbl t) s = none ∧
    (mcpGet (oncloseRun tbl t) (some s)).2 =
      .badRequest400 "Invalid or missing session ID" := by
  refine ⟨?_, ?_, ?_, oncloseRun_lookup_none tbl t s hsid hs,
    mcpGet_unknown _ s (oncloseRun_lookup_none tbl t s hsid hs)⟩
  · unfold mcpDelete
    split
    · rfl
    · cases fb <;> rfl
  · unfold mcpGet
    split <;> rfl
  · intro p hp
    rcases mcpPost_table_cases tbl hd i fid tid fb with h | h
    · rw [h]; exact hp
    · rw [h]; exact mem_insertT_of_mem tbl fid ⟨tid, some fid⟩ p hfresh hp

/-- Witness for C7: a one-session table; after the onclose callback of the
transport owning `"a"` fires, `"a"` is gone and GET answers 400. -/
theorem claim_C7_onclose_removal_witness :
    lookup [("a", (⟨0, some "a"⟩ : Transport))] "b" = none ∧
    (Transport.mk 0 (some "a")).sessionId = some "a" ∧
    ("a" : String) ≠ "" ∧
    lookup (oncloseRun [("a", ⟨0, some "a"⟩)] ⟨0, some "a"⟩) "a" = none ∧
    (mcpGet (oncloseRun [("a", ⟨0, some "a"⟩)] ⟨0, some "a"⟩) (some "a")).2 =
      .badRequest400 "Invalid or missing session ID" :=
  ⟨by decide, by decide, by decide,
    (claim_C7_onclose_removal [("a", ⟨0, some "a"⟩)] none false "b" "a" 1 .ok
      ⟨0, some "a"⟩ (by decide) (by decide) (by decide)).2.2.2.1,
    (claim_C7_onclose_removal [("a", ⟨0, some "a"⟩)] none false "b" "a" 1 .ok
      ⟨0, some "a"⟩ (by decide) (by decide) (by decide)).2.2.2.2⟩

/-- C9: every operation preserves the invariant that each table entry's key
is the sessionId reported by the transport stored under it (with unique,
non-empty keys); under that invariant the onclose callback removes exactly
the closing transport's entry and no other. -/
theorem claim_C9_invariant (tbl : Table) (hd : Option String) (i : Bool)
    (fid s : String) (tid : Nat) (fb : ForwardBehavior) (t : Transport)
    (f : String → Bool)
    (hwf : tableWF tbl) (hfid : fid ≠ "")
    (hsid : t.sessionId = some s) (hs : s ≠ "") :
    tableWF (mcpPost tbl hd i fid tid fb).table ∧
    tableWF (oncloseRun tbl t) ∧
    tableWF (sigintShutdown tbl f).1 ∧
    lookup (oncloseRun tbl t) s = none ∧
    (∀ p ∈ tbl, p.1 ≠ s → p ∈ oncloseRun tbl t) := by
  refine ⟨?_, ?_, ?_, oncloseRun_lookup_none tbl t s hsid hs, ?_⟩
  · rcases mcpPost_table_cases tbl hd i fid tid fb with h | h
    · rw [h]; exact hwf
    · rw [h]; exact tableWF_insertT tbl fid tid hwf hfid
  · rcases oncloseRun_table_cases tbl t with h | ⟨s', _, h⟩
    · rw [h]; exact hwf
    · rw [h]; exact tableWF_eraseT tbl s' hwf
  · rw [sigintShutdown_eq]
    exact tableWF_of_sublist tbl _ (List.filter_sublist tbl) hwf
  · intro p hp hne
    rcases oncloseRun_table_cases tbl t with h | ⟨s', hs', h⟩
    · rw [h]; exact hp
    · have hss : s' = s := by
        rw [hsid] at hs'
        injection hs' with hss
        exact hss.symm
      rw [h]
      refine mem_eraseT_of_ne tbl s' p hp ?_
      rw [hss]; exact hne

/-- Witness for C9 on a two-session well-formed table. -/
theorem claim_C9_invariant_witness :
    tableWF [("a", (⟨0, some "a"⟩ : Transport)), ("b", ⟨1, some "b"⟩)] ∧
    ("c" : String) ≠ "" ∧
    (Transport.mk 1 (some "b")).sessionId = some "b" ∧
    ("b" : String) ≠ "" ∧
    (tableWF (mcpPost [("a", ⟨0, some "a"⟩), ("b", ⟨1, some "b"⟩)] none true
        "c" 2 .ok).table ∧
     tableWF (oncloseRun [("a", ⟨0, some "a"⟩), ("b", ⟨1, some "b"⟩)]
        ⟨1, some "b"⟩) ∧
     tableWF (sigintShutdown [("a", ⟨0, some "a"⟩), ("b", ⟨1, some "b"⟩)]
        (fun _ => false)).1 ∧
     lookup (oncloseRun [("a", ⟨0, some "a"⟩), ("b", ⟨1, some "b"⟩)]
        ⟨1, some "b"⟩) "b" = none ∧
     (∀ p ∈ [("a", (⟨0, some "a"⟩ : Transport)), ("b", ⟨1, some "b"⟩)],
        p.1 ≠ "b" →
        p ∈ oncloseRun [("a", ⟨0, some "a"⟩), ("b", ⟨1, some "b"⟩)]
          ⟨1, some "b"⟩)) :=
  ⟨by decide, by decide, by decide, by decide,
    claim_C9_invariant [("a", ⟨0, some "a"⟩), ("b", ⟨1, some "b"⟩)] none true
      "c" "b" 2 .ok ⟨1, some "b"⟩ (fun _ => false)
      (by decide) (by decide) (by decide) (by decide)⟩

/-- C1 (amended): a request whose `Mcp-Session-Id` header is absent or names
an identifier with no table entry is rejected with 400 and no table
mutation — on GET and DELETE with the plain-text body, on POST with the
JSON-RPC body `{jsonrpc:"2.0", error:{code:-32000,...}, id:null}` — unless
it is a POST whose session header is absent *or empty* and whose body is a
valid initialization request (the code tests JavaScript truthiness of the
header, so an empty header value behaves like an absent one). -/
theorem claim_C1_amended (tbl : Table) (hd : Option String) (i : Bool)
    (fid : String) (tid : Nat) (fb : ForwardBehavior)
    (hunknown : hd = none ∨ ∃ s, hd = some s ∧ lookup tbl s = none) :
    ((mcpGet tbl hd).2 = .badRequest400 "Invalid or missing session ID" ∧
      (mcpGet tbl hd).1 = tbl) ∧
    ((mcpDelete tbl hd fb).2 = .badRequest400 "Invalid or missing session ID" ∧
      (mcpDelete tbl hd fb).1 = tbl) ∧
    (¬(sessionTruthy hd = false ∧ i = true) →
      (mcpPost tbl hd i fid tid fb).result =
        .badRequest ⟨"2.0", -32000, "Bad Request: No valid session ID", true⟩ ∧
      (mcpPost tbl hd i fid tid fb).table = tbl ∧
      (mcpPost tbl hd i fid tid fb).events = [.respond400]) := by
  have hcond : (sessionTruthy hd && (lookupH tbl hd).isSome) = false := by
    rcases hunknown with h | ⟨s, h, hl⟩
    · subst h; rfl
    · subst h; simp [lookupH, hl]
  refine ⟨⟨?_, ?_⟩, ⟨?_, ?_⟩, ?_⟩
  · simp [mcpGet, hcond]
  · simp [mcpGet, hcond]
  · simp [mcpDelete, hcond]
  · simp [mcpDelete, hcond]
  · intro hnotexc
    have hcond2 : (!sessionTruthy hd && i) = false := by
      cases hi : i
      · simp
      · cases hst : sessionTruthy hd
        · exact absurd ⟨hst, hi⟩ hnotexc
        · simp [hst]
    refine ⟨?_, ?_, ?_⟩ <;> simp [mcpPost, hcond, hcond2, badSessionBody]

/-- C1 fails as frozen at a POST carrying a *present but empty*
`Mcp-Session-Id` header with an initialization body: the empty string has no
table entry and the header is not absent, so the claim demands a 400 with
no mutation, but the code's truthiness test sends the request down the
initialization path, creating a transport and a table entry. -/
theorem claim_C1_counterexample :
    (some "" ≠ (none : Option String)) ∧
    lookup ([] : Table) "" = none ∧
    (mcpPost [] (some "") true "a1" 0 .ok).result = .initOk "a1" ∧
    (mcpPost [] (some "") true "a1" 0 .ok).result ≠
      .badRequest ⟨"2.0", -32000, "Bad Request: No valid session ID", true⟩ ∧
    (mcpPost [] (some "") true "a1" 0 .ok).table = [("a1", ⟨0, some "a1"⟩)] := by
  decide

/-- Witness for C1 (amended) at the unknown identifier `"zzz"` on the empty
table. -/
theorem claim_C1_amended_witness :
    ((some "zzz" : Option String) = none ∨
      ∃ s, (some "zzz" : Option String) = some s ∧ lookup ([] : Table) s = none) ∧
    ¬(sessionTruthy (some "zzz") = false ∧ (true : Bool) = true) ∧
    (mcpGet [] (some "zzz")).2 = .badRequest400 "Invalid or missing session ID" ∧
    (mcpDelete [] (some "zzz") .ok).2 =
      .badRequest400 "Invalid or missing session ID" ∧
    (mcpPost [] (some "zzz") true "f1" 1 .ok).result =
      .badRequest ⟨"2.0", -32000, "Bad Request: No valid session ID", true⟩ ∧
    (mcpPost [] (some "zzz") true "f1" 1 .ok).table = ([] : Table) :=
  ⟨Or.inr ⟨"zzz", rfl, rfl⟩, by decide,
    (claim_C1_amended [] (some "zzz") true "f1" 1 .ok
      (Or.inr ⟨"zzz", rfl, rfl⟩)).1.1,
    (claim_C1_amended [] (some "zzz") true "f1" 1 .ok
      (Or.inr ⟨"zzz", rfl, rfl⟩)).2.1.1,
    ((claim_C1_amended [] (some "zzz") true "f1" 1 .ok
      (Or.inr ⟨"zzz", rfl, rfl⟩)).2.2 (by decide)).1,
    ((claim_C1_amended [] (some "zzz") true "f1" 1 .ok
      (Or.inr ⟨"zzz", rfl, rfl⟩)).2.2 (by decide)).2.1⟩

/-- C10 (amended): a POST with a valid initialization body and a *non-empty*
unknown `Mcp-Session-Id` header is rejected with 400 and creates no
transport and no table entry; initialization is honored only when the
header is absent or empty. -/
theorem claim_C10_amended (tbl : Table) (s fid : String) (tid : Nat)
    (fb : ForwardBehavior) (hs : s ≠ "") (hl : lookup tbl s = none) :
    (mcpPost tbl (some s) true fid tid fb).result =
      .badRequest ⟨"2.0", -32000, "Bad Request: No valid session ID", true⟩ ∧
    (mcpPost tbl (some s) true fid tid fb).table = tbl ∧
    (mcpPost tbl (some s) true fid tid fb).events = [.respond400] := by
  have h1 : (sessionTruthy (some s) && (lookupH tbl (some s)).isSome) = false := by
    simp [lookupH, hl]
  have h2 : (!sessionTruthy (some s) && true) = false := by
    simp [sessionTruthy, hs]
  refine ⟨?_, ?_, ?_⟩ <;> simp [mcpPost, h1, h2, badSessionBody]

/-- C10 fails as frozen: a POST that *carries* an `Mcp-Session-Id` header
(with the empty value, which names no table entry) and a valid
initialization body is not rejected — the code honors the initialization,
emitting a transport-construction event and inserting a table entry. -/
theorem claim_C10_counterexample :
    (mcpPost [] (some "") true "b2" 7 .ok).events =
      [.createTransport 7, .sessionReady "b2", .tableInsert "b2" 7,
        .respondSession "b2"] ∧
    (mcpPost [] (some "") true "b2" 7 .ok).result = .initOk "b2" ∧
    lookup (mcpPost [] (some "") true "b2" 7 .ok).table "b2" =
      some ⟨7, some "b2"⟩ := by
  decide

/-- Witness for C10 (amended) at the non-empty unknown identifier `"w1"`. -/
theorem claim_C10_amended_witness :
    ("w1" : String) ≠ "" ∧
    lookup ([] : Table) "w1" = none ∧
    (mcpPost [] (some "w1") true "f2" 2 .ok).result =
      .badRequest ⟨"2.0", -32000, "Bad Request: No valid session ID", true⟩ ∧
    (mcpPost [] (some "w1") true "f2" 2 .ok).table = ([] : Table) ∧
    (mcpPost [] (some "w1") true "f2" 2 .ok).events = [.respond400] :=
  ⟨by decide, by decide,
    (claim_C10_amended [] "w1" "f2" 2 .ok (by decide) (by decide)).1,
    (claim_C10_amended [] "w1" "f2" 2 .ok (by decide) (by decide)).2.1,
    (claim_C10_amended [] "w1" "f2" 2 .ok (by decide) (by decide)).2.2⟩

/-- C2: a POST with a valid initialization body and no session header
constructs exactly one transport and performs exactly one table insertion;
the inserted key is the freshly generated identifier, which is also the
`Mcp-Session-Id` response header value; and in the dispatch trace the
insertion occurs only after the transport has confirmed the session ready
(the insertion sits inside the `onsessioninitialized` callback — the
transport's side of this ordering is modelled from the spec, see
`initPath`). -/
theorem claim_C2_init_insert (tbl : Table) (fid : String) (tid : Nat)
    (hfresh : lookup tbl fid = none) :
    (mcpPost tbl none true fid tid .ok).result = .initOk fid ∧
    (mcpPost tbl none true fid tid .ok).events =
      [.createTransport tid, .sessionReady fid, .tableInsert fid tid,
        .respondSession fid] ∧
    ((mcpPost tbl none true fid tid .ok).events.countP isCreateEvent) = 1 ∧
    ((mcpPost tbl none true fid tid .ok).events.countP isInsertEvent) = 1 ∧
    insertsAfterReady (mcpPost tbl none true fid tid .ok).events = true ∧
    lookup (mcpPost tbl none true fid tid .ok).table fid =
      some ⟨tid, some fid⟩ ∧
    (mcpPost tbl none true fid tid .ok).table.length = tbl.length + 1 ∧
    (∀ p ∈ tbl, p ∈ (mcpPost tbl none true fid tid .ok).table) := by
  have hpath : mcpPost tbl none true fid tid .ok = initPath tbl fid tid .ok := rfl
  rw [hpath]
  refine ⟨rfl, rfl, ?_, ?_, ?_, lookup_insertT_self tbl fid ⟨tid, some fid⟩,
    length_insertT_of_fresh tbl fid ⟨tid, some fid⟩ hfresh,
    fun p hp => mem_insertT_of_mem tbl fid ⟨tid, some fid⟩ p hfresh hp⟩
  · rfl
  · rfl
  · simp [insertsAfterReady, insertsAfterReadyAux, initPath]

/-- Witness for C2 on the empty table with fresh identifier `"s1"`. -/
theorem claim_C2_init_insert_witness :
    lookup ([] : Table) "s1" = none ∧
    ((mcpPost [] none true "s1" 0 .ok).result = .initOk "s1" ∧
     (mcpPost [] none true "s1" 0 .ok).events =
       [.createTransport 0, .sessionReady "s1", .tableInsert "s1" 0,
         .respondSession "s1"] ∧
     ((mcpPost [] none true "s1" 0 .ok).events.countP isCreateEvent) = 1 ∧
     ((mcpPost [] none true "s1" 0 .ok).events.countP isInsertEvent) = 1 ∧
     insertsAfterReady (mcpPost [] none true "s1" 0 .ok).events = true ∧
     lookup (mcpPost [] none true "s1" 0 .ok).table "s1" =
       some ⟨0, some "s1"⟩ ∧
     (mcpPost [] none true "s1" 0 .ok).table.length = ([] : Table).length + 1 ∧
     (∀ p ∈ ([] : Table), p ∈ (mcpPost [] none true "s1" 0 .ok).table)) :=
  ⟨by decide, claim_C2_init_insert [] "s1" 0 (by decide)⟩

/-- C6: whenever the POST dispatch reaches a transport (so an exception can
arise while constructing or forwarding), the catch block produces the 500
response with JSON-RPC code -32603 exactly when the failure struck before
any response headers were sent; when headers were already sent the caught
error leaves the response untouched. -/
theorem claim_C6_error_boundary (tbl : Table) (hd : Option String) (i : Bool)
    (fid : String) (tid : Nat) (fb : ForwardBehavior)
    (hreach : postReachesTransport tbl hd i) :
    ((mcpPost tbl hd i fid tid fb).result = .internalError internalErrorBody ↔
      fb = .throwsBefore) ∧
    ((mcpPost tbl hd i fid tid fb).result = .errorAfterHeaders ↔
      fb = .throwsAfter) ∧
    internalErrorBody = ⟨"2.0", -32603, "Internal server error", true⟩ := by
  have hcases : mcpPost tbl hd i fid tid fb =
      forwardKnown tbl ((lookupH tbl hd).getD ⟨0, none⟩) fb ∨
      mcpPost tbl hd i fid tid fb = initPath tbl fid tid fb := by
    rcases hreach with h | ⟨hst, hi⟩
    · left
      unfold mcpPost
      rw [if_pos h]
    · right
      unfold mcpPost
      rw [if_neg (by simp [hst]), if_pos (by simp [hst, hi])]
  rcases hcases with h | h <;> rw [h] <;>
    exact ⟨by cases fb <;> simp [forwardKnown, initPath, internalErrorBody],
      by cases fb <;> simp [forwardKnown, initPath, internalErrorBody], rfl⟩

/-- Witness for C6 at a known session whose forward throws before headers
are sent. -/
theorem claim_C6_error_boundary_witness :
    postReachesTransport [("k", ⟨3, some "k"⟩)] (some "k") false ∧
    ((mcpPost [("k", ⟨3, some "k"⟩)] (some "k") false "f" 9
        .throwsBefore).result = .internalError internalErrorBody ↔
      ForwardBehavior.throwsBefore = .throwsBefore) ∧
    ((mcpPost [("k", ⟨3, some "k"⟩)] (some "k") false "f" 9
        .throwsBefore).result = .errorAfterHeaders ↔
      ForwardBehavior.throwsBefore = .throwsAfter) ∧
    internalErrorBody = ⟨"2.0", -32603, "Internal server error", true⟩ :=
  ⟨Or.inl (by decide),
    claim_C6_error_boundary [("k", ⟨3, some "k"⟩)] (some "k") false "f" 9
      .throwsBefore (Or.inl (by decide))⟩

/-!
Error-path lemmas for the tool handlers, one per handler with a try/catch.
-/

theorem single_error_result (bArg : Option String) (f : FetchResult)
    (hbad : fetchMisbehaves goodSingle f = true)
    (hmsg : thrownMsgNonempty f = true) :
    (showRandomDogImageTool bArg f).isError = true ∧
    ∃ m, errorFieldOf (showRandomDogImageTool bArg f).text = some m ∧ m ≠ "" := by
  cases f with
  | threw e =>
    cases e with
    | err m =>
      have hm : m ≠ "" := by simpa [thrownMsgNonempty] using hmsg
      exact ⟨rfl, m, rfl, hm⟩
    | nonError => exact ⟨rfl, "Failed to fetch dog image", rfl, by decide⟩
  | ok d =>
    obtain ⟨st, mv⟩ := d
    have hg : goodSingle ⟨st, mv⟩ = false := by
      simpa [fetchMisbehaves] using hbad
    by_cases hst : st = "success"
    · cases mv with
      | str s' =>
        have hs' : s' = "" := by
          simpa [goodSingle, hst, jvalTruthy, jvalIsStr] using hg
        subst hs'
        refine ⟨?_, "Failed to fetch dog image", ?_, by decide⟩ <;>
          simp [showRandomDogImageTool, fetchRandomDogImage, hst, jvalTruthy,
            createErrorResult, errorFieldOf]
      | arr xs =>
        refine ⟨?_, splitTypeErrorMessage, ?_, by decide⟩ <;>
          simp [showRandomDogImageTool, fetchRandomDogImage, hst, jvalTruthy,
            createErrorResult, errorFieldOf]
      | obj ks =>
        refine ⟨?_, splitTypeErrorMessage, ?_, by decide⟩ <;>
          simp [showRandomDogImageTool, fetchRandomDogImage, hst, jvalTruthy,
            createErrorResult, errorFieldOf]
      | nullv =>
        refine ⟨?_, "Failed to fetch dog image", ?_, by decide⟩ <;>
          simp [showRandomDogImageTool, fetchRandomDogImage, hst, jvalTruthy,
            createErrorResult, errorFieldOf]
    · refine ⟨?_, "Failed to fetch dog image", ?_, by decide⟩ <;>
        simp [showRandomDogImageTool, fetchRandomDogImage, hst,
          createErrorResult, errorFieldOf]

theorem breeds_error_result (f : FetchResult)
    (hbad : fetchMisbehaves goodBreeds f = true)
    (hmsg : thrownMsgNonempty f = true) :
    (showAllBreedsTool f).isError = true ∧
    ∃ m, errorFieldOf (showAllBreedsTool f).text = some m ∧ m ≠ "" := by
  cases f with
  | threw e =>
    cases e with
    | err m =>
      have hm : m ≠ "" := by simpa [thrownMsgNonempty] using hmsg
      exact ⟨rfl, m, rfl, hm⟩
    | nonError => exact ⟨rfl, "Failed to fetch breeds", rfl, by decide⟩
  | ok d =>
    obtain ⟨st, mv⟩ := d
    have hg : goodBreeds ⟨st, mv⟩ = false := by
      simpa [fetchMisbehaves] using hbad
    by_cases hst : st = "success"
    · cases mv with
      | str s' =>
        refine ⟨?_, "Failed to fetch breeds", ?_, by decide⟩ <;>
          simp [showAllBreedsTool, fetchAllBreeds, hst, jvalIsObjectType,
            createErrorResult, errorFieldOf]
      | arr xs =>
        exfalso
        simp [goodBreeds, hst, jvalIsObjectType, jvalIsNull] at hg
      | obj ks =>
        exfalso
        simp [goodBreeds, hst, jvalIsObjectType, jvalIsNull] at hg
      | nullv =>
        refine ⟨?_, keysOfNullMessage, ?_, by decide⟩ <;>
          simp [showAllBreedsTool, fetchAllBreeds, hst, jvalIsObjectType,
            objectKeysJS, createErrorResult, errorFieldOf]
    · refine ⟨?_, "Failed to fetch breeds", ?_, by decide⟩ <;>
        simp [showAllBreedsTool, fetchAllBreeds, hst,
          createErrorResult, errorFieldOf]

theorem images_error_result (breed : String) (f : FetchResult)
    (hbad : fetchMisbehaves goodImages f = true)
    (hmsg : thrownMsgNonempty f = true) :
    (getMoreImagesTool breed f).isError = true ∧
    ∃ m, errorFieldOf (getMoreImagesTool breed f).text = some m ∧ m ≠ "" := by
  cases f with
  | threw e =>
    cases e with
    | err m =>
      have hm : m ≠ "" := by simpa [thrownMsgNonempty] using hmsg
      exact ⟨rfl, m, rfl, hm⟩
    | nonError => exact ⟨rfl, "Failed to fetch images", rfl, by decide⟩
  | ok d =>
    obtain ⟨st, mv⟩ := d
    have hg : goodImages ⟨st, mv⟩ = false := by
      simpa [fetchMisbehaves] using hbad
    by_cases hst : st = "success"
    · cases mv with
      | arr xs =>
        exfalso
        simp [goodImages, hst, jvalIsArr] at hg
      | str s' =>
        refine ⟨?_, "Failed to fetch images", ?_, by decide⟩ <;>
          simp [getMoreImagesTool, fetchBreedImages, hst, jvalIsArr,
            createErrorResult, errorFieldOf]
      | obj ks =>
        refine ⟨?_, "Failed to fetch images", ?_, by decide⟩ <;>
          simp [getMoreImagesTool, fetchBreedImages, hst, jvalIsArr,
            createErrorResult, errorFieldOf]
      | nullv =>
        refine ⟨?_, "Failed to fetch images", ?_, by decide⟩ <;>
          simp [getMoreImagesTool, fetchBreedImages, hst, jvalIsArr,
            createErrorResult, errorFieldOf]
    · refine ⟨?_, "Failed to fetch images", ?_, by decide⟩ <;>
        simp [getMoreImagesTool, fetchBreedImages, hst,
          createErrorResult, errorFieldOf]

theorem singleV1_error_result (f : FetchResult)
    (hbad : fetchMisbehaves goodSingle f = true)
    (hmsg : thrownMsgNonempty f = true) :
    (showRandomDogImageToolV1 f).isError = true ∧
    ∃ m, errorFieldOf (showRandomDogImageToolV1 f).text = some m ∧ m ≠ "" := by
  cases f with
  | threw e =>
    cases e with
    | err m =>
      have hm : m ≠ "" := by simpa [thrownMsgNonempty] using hmsg
      exact ⟨rfl, m, rfl, hm⟩
    | nonError => exact ⟨rfl, "Unknown error", rfl, by decide⟩
  | ok d =>
    obtain ⟨st, mv⟩ := d
    have hg : goodSingle ⟨st, mv⟩ = false := by
      simpa [fetchMisbehaves] using hbad
    cases mv with
    | str s' =>
      have hc : ¬(st = "success" ∧ s' ≠ "") := by
        intro hcon
        simp [goodSingle, hcon.1, jvalTruthy, jvalIsStr, hcon.2] at hg
      refine ⟨?_, "Failed to fetch dog image", ?_, by decide⟩ <;>
      · by_cases hst : st = "success"
        · have hs' : s' = "" := by
            by_contra hs'
            exact hc ⟨hst, hs'⟩
          subst hs'
          simp [showRandomDogImageToolV1, splitBreedJS, jvalTruthy,
            errorFieldOf]
        · simp [showRandomDogImageToolV1, splitBreedJS, jvalTruthy, hst,
            errorFieldOf]
    | arr xs =>
      refine ⟨rfl, splitTypeErrorMessage, rfl, by decide⟩
    | obj ks =>
      refine ⟨rfl, splitTypeErrorMessage, rfl, by decide⟩
    | nullv =>
      refine ⟨rfl, splitTypeErrorMessage, rfl, by decide⟩

theorem imagesV1_error_result (breed : String) (f : FetchResult)
    (hbad : fetchMisbehaves goodImages f = true)
    (hmsg : thrownMsgNonempty f = true) :
    (getMoreImagesToolV1 breed f).isError = true ∧
    ∃ m, errorFieldOf (getMoreImagesToolV1 breed f).text = some m ∧ m ≠ "" := by
  cases f with
  | threw e =>
    cases e with
    | err m =>
      have hm : m ≠ "" := by simpa [thrownMsgNonempty] using hmsg
      exact ⟨rfl, m, rfl, hm⟩
    | nonError => exact ⟨rfl, "Unknown error", rfl, by decide⟩
  | ok d =>
    obtain ⟨st, mv⟩ := d
    have hg : goodImages ⟨st, mv⟩ = false := by
      simpa [fetchMisbehaves] using hbad
    cases mv with
    | arr xs =>
      have hst : ¬st = "success" := by
        intro hst
        simp [goodImages, hst, jvalIsArr] at hg
      refine ⟨?_, "Failed to fetch images", ?_, by decide⟩ <;>
        simp [getMoreImagesToolV1, hst, errorFieldOf]
    | str s' => refine ⟨rfl, "Failed to fetch images", rfl, by decide⟩
    | obj ks => refine ⟨rfl, "Failed to fetch images", rfl, by decide⟩
    | nullv => refine ⟨rfl, "Failed to fetch images", rfl, by decide⟩

/-- C3 (amended): for the server.ts handlers of `show-random-dog-image`,
`show-all-breeds` and `get-more-images` (and the part_001 handlers of
`show-random-dog-image` and `get-more-images`), every misbehaving fetch —
throwing, or returning a payload failing the handler's own success checks —
yields a normal error-flagged result whose textual payload carries an
`error` field equal to the thrown `Error`'s message or a non-empty
fallback, hence non-empty whenever thrown `Error`s carry non-empty
messages; the part_001 `show-all-breeds` handler, by contrast, has no
try/catch and propagates a throwing fetch past the operation boundary. -/
theorem claim_C3_amended (bArg : Option String) (breed : String)
    (f : FetchResult) (hmsg : thrownMsgNonempty f = true) :
    (fetchMisbehaves goodSingle f = true →
      (showRandomDogImageTool bArg f).isError = true ∧
      ∃ m, errorFieldOf (showRandomDogImageTool bArg f).text = some m ∧ m ≠ "") ∧
    (fetchMisbehaves goodBreeds f = true →
      (showAllBreedsTool f).isError = true ∧
      ∃ m, errorFieldOf (showAllBreedsTool f).text = some m ∧ m ≠ "") ∧
    (fetchMisbehaves goodImages f = true →
      (getMoreImagesTool breed f).isError = true ∧
      ∃ m, errorFieldOf (getMoreImagesTool breed f).text = some m ∧ m ≠ "") ∧
    (fetchMisbehaves goodSingle f = true →
      (showRandomDogImageToolV1 f).isError = true ∧
      ∃ m, errorFieldOf (showRandomDogImageToolV1 f).text = some m ∧ m ≠ "") ∧
    (fetchMisbehaves goodImages f = true →
      (getMoreImagesToolV1 breed f).isError = true ∧
      ∃ m, errorFieldOf (getMoreImagesToolV1 breed f).text = some m ∧ m ≠ "") ∧
    (∀ e, showAllBreedsToolV1 (.threw e) = .error e) :=
  ⟨fun hbad => single_error_result bArg f hbad hmsg,
   fun hbad => breeds_error_result f hbad hmsg,
   fun hbad => images_error_result breed f hbad hmsg,
   fun hbad => singleV1_error_result f hbad hmsg,
   fun hbad => imagesV1_error_result breed f hbad hmsg,
   fun _ => rfl⟩

/-- C3 fails as frozen: the part_001 `show-all-breeds` handler (one of the
tools the claim names) has no try/catch, so a fetch that throws a network
error escapes the handler instead of becoming an error-flagged result. -/
theorem claim_C3_counterexample :
    showAllBreedsToolV1 (.threw (.err "network error")) =
      .error (.err "network error") ∧
    (showAllBreedsToolV1 (.threw (.err "network error"))).toOption = none :=
  ⟨rfl, rfl⟩

/-- Witness for C3 (amended) at the payload `{status:"error", message:null}`,
which misbehaves for all three tools. -/
theorem claim_C3_amended_witness :
    thrownMsgNonempty (.ok ⟨"error", .nullv⟩) = true ∧
    fetchMisbehaves goodSingle (.ok ⟨"error", .nullv⟩) = true ∧
    fetchMisbehaves goodBreeds (.ok ⟨"error", .nullv⟩) = true ∧
    fetchMisbehaves goodImages (.ok ⟨"error", .nullv⟩) = true ∧
    ((showRandomDogImageTool none (.ok ⟨"error", .nullv⟩)).isError = true ∧
      ∃ m, errorFieldOf
        (showRandomDogImageTool none (.ok ⟨"error", .nullv⟩)).text =
          some m ∧ m ≠ "") ∧
    ((showAllBreedsTool (.ok ⟨"error", .nullv⟩)).isError = true ∧
      ∃ m, errorFieldOf (showAllBreedsTool (.ok ⟨"error", .nullv⟩)).text =
        some m ∧ m ≠ "") ∧
    ((getMoreImagesTool "hound" (.ok ⟨"error", .nullv⟩)).isError = true ∧
      ∃ m, errorFieldOf
        (getMoreImagesTool "hound" (.ok ⟨"error", .nullv⟩)).text =
          some m ∧ m ≠ "") ∧
    ((showRandomDogImageToolV1 (.ok ⟨"error", .nullv⟩)).isError = true ∧
      ∃ m, errorFieldOf
        (showRandomDogImageToolV1 (.ok ⟨"error", .nullv⟩)).text =
          some m ∧ m ≠ "") ∧
    ((getMoreImagesToolV1 "hound" (.ok ⟨"error", .nullv⟩)).isError = true ∧
      ∃ m, errorFieldOf
        (getMoreImagesToolV1 "hound" (.ok ⟨"error", .nullv⟩)).text =
          some m ∧ m ≠ "") ∧
    showAllBreedsToolV1 (.threw .nonError) = .error .nonError :=
  ⟨by decide, by decide, by decide, by decide,
    (claim_C3_amended none "hound" (.ok ⟨"error", .nullv⟩) (by decide)).1
      (by decide),
    (claim_C3_amended none "hound" (.ok ⟨"error", .nullv⟩) (by decide)).2.1
      (by decide),
    (claim_C3_amended none "hound" (.ok ⟨"error", .nullv⟩) (by decide)).2.2.1
      (by decide),
    (claim_C3_amended none "hound" (.ok ⟨"error", .nullv⟩) (by decide)).2.2.2.1
      (by decide),
    (claim_C3_amended none "hound" (.ok ⟨"error", .nullv⟩)
      (by decide)).2.2.2.2.1 (by decide),
    (claim_C3_amended none "hound" (.threw .nonError)
      (by decide)).2.2.2.2.2 .nonError⟩

/-- C4 (amended): the `count` argument of `get-more-images` defaults to 3
when absent and is schema-validated to be an integer in `[1, 30]` in
server.ts but in `[1, 10]` in the part_001 variant; in both, an
out-of-range count is rejected before the handler runs, so no outbound
fetch is consulted. -/
theorem claim_C4_amended (q : ℚ) (b : String) (f g : FetchResult) :
    zodCount30 none = some 3 ∧ zodCount10 none = some 3 ∧
    ((zodCount30 (some q)).isSome ↔ q.den = 1 ∧ 1 ≤ q ∧ q ≤ 30) ∧
    ((zodCount10 (some q)).isSome ↔ q.den = 1 ∧ 1 ≤ q ∧ q ≤ 10) ∧
    zodCount30 (some 0) = none ∧ zodCount30 (some 31) = none ∧
    zodCount10 (some 0) = none ∧ zodCount10 (some 11) = none ∧
    (zodCount30 (some q) = none →
      invokeGetMoreImages b (some q) f = .schemaRejected ∧
      invokeGetMoreImages b (some q) f = invokeGetMoreImages b (some q) g) ∧
    (zodCount10 (some q) = none →
      invokeGetMoreImagesV1 b (some q) f = .schemaRejected ∧
      invokeGetMoreImagesV1 b (some q) f = invokeGetMoreImagesV1 b (some q) g) := by
  refine ⟨rfl, rfl, ?_, ?_, by decide, by decide, by decide, by decide, ?_, ?_⟩
  · unfold zodCount30
    by_cases h : q.den = 1 ∧ 1 ≤ q ∧ q ≤ 30 <;> simp [h]
  · unfold zodCount10
    by_cases h : q.den = 1 ∧ 1 ≤ q ∧ q ≤ 10 <;> simp [h]
  · intro h
    constructor <;> simp [invokeGetMoreImages, h]
  · intro h
    constructor <;> simp [invokeGetMoreImagesV1, h]

/-- C4 fails as frozen: the claim's range `[1, 30]` does not hold of the
part_001 `get-more-images` schema, whose bound is `max(10)` — count 30
(in-range per the claim) is rejected there, while server.ts accepts it. -/
theorem claim_C4_counterexample :
    zodCount10 (some 30) = none ∧
    zodCount30 (some 30) = some 30 ∧
    zodCount10 (some 11) = none ∧
    zodCount30 (some 11) = some 11 := by
  decide

/-- Witness for C4 (amended) at the out-of-range count 31 and the
non-integer count 5/2. -/
theorem claim_C4_amended_witness :
    zodCount30 none = some 3 ∧
    ((zodCount30 (some (5/2 : ℚ))).isSome ↔
      (5/2 : ℚ).den = 1 ∧ 1 ≤ (5/2 : ℚ) ∧ (5/2 : ℚ) ≤ 30) ∧
    (zodCount30 (some 31) = none →
      invokeGetMoreImages "hound" (some 31) (.threw .nonError) =
        .schemaRejected ∧
      invokeGetMoreImages "hound" (some 31) (.threw .nonError) =
        invokeGetMoreImages "hound" (some 31)
          (.ok ⟨"success", .arr ["u"]⟩)) ∧
    invokeGetMoreImages "hound" (some 31) (.threw .nonError) =
      .schemaRejected :=
  ⟨(claim_C4_amended (5/2) "hound" (.threw .nonError)
      (.ok ⟨"success", .arr ["u"]⟩)).1,
    (claim_C4_amended (5/2) "hound" (.threw .nonError)
      (.ok ⟨"success", .arr ["u"]⟩)).2.2.1,
    (claim_C4_amended 31 "hound" (.threw .nonError)
      (.ok ⟨"success", .arr ["u"]⟩)).2.2.2.2.2.2.2.2.1,
    ((claim_C4_amended 31 "hound" (.threw .nonError)
      (.ok ⟨"success", .arr ["u"]⟩)).2.2.2.2.2.2.2.2.1 (by decide)).1⟩

/-- C5: on a success payload whose message is a (non-empty) locator string,
the single-image operation derives the breed by splitting the locator on
`/` and reading index 4 — in the server.ts helper, in the handler's
structured result, and in the part_000/part_001 inline handler alike. -/
theorem claim_C5_breed_extraction (bArg : Option String) (m : String)
    (hm : m ≠ "") :
    fetchRandomDogImage (.ok ⟨"success", .str m⟩) =
      .ok (m, (jsSplitSlash m).get? 4) ∧
    (showRandomDogImageTool bArg (.ok ⟨"success", .str m⟩)).structuredContent =
      some (.randomDog m ((jsSplitSlash m).get? 4) "success") ∧
    (showRandomDogImageToolV1 (.ok ⟨"success", .str m⟩)).structuredContent =
      some (.dogData "success" (.str m) ((jsSplitSlash m).get? 4)) := by
  have hfetch : fetchRandomDogImage (.ok ⟨"success", .str m⟩) =
      .ok (m, (jsSplitSlash m).get? 4) := by
    simp [fetchRandomDogImage, jvalTruthy, hm]
  refine ⟨hfetch, ?_, ?_⟩
  · simp [showRandomDogImageTool, hfetch]
  · simp [showRandomDogImageToolV1, splitBreedJS, jvalTruthy, hm]

/-- Witness for C5 at `"https://x/breed/hound/9.jpg"`: the structured breed
field is `"hound"`. -/
theorem claim_C5_breed_extraction_witness :
    ("https://x/breed/hound/9.jpg" : String) ≠ "" ∧
    (showRandomDogImageTool (some "hound")
        (.ok ⟨"success", .str "https://x/breed/hound/9.jpg"⟩)).structuredContent =
      some (.randomDog "https://x/breed/hound/9.jpg" (some "hound") "success") :=
  ⟨by decide,
    (claim_C5_breed_extraction (some "hound") "https://x/breed/hound/9.jpg"
      (by decide)).2.1⟩
